import Mathlib

/-!
Verification of `DynamoDBConnectionManager`
(src/packages/aws-lambda-graphql/src/DynamoDBConnectionManager.ts).

The manager orchestrates a durable connection store (DynamoDB), a push
transport (API Gateway management API) and a subscription registry.  We model
the manager's operations as pure functions over an explicit store, with the
outcomes of the external collaborators passed in as parameters, and record the
side effects each operation issues as an explicit trace.
-/

namespace DynamoDBCM

/-- Connection `data` field: `{ endpoint, context, isInitialized }` as built by
`registerConnection`; `context` is an opaque mapping (empty list = `{}`). -/
structure ConnData where
  endpoint : String
  context : List (String × String)
  isInitialized : Bool
deriving Repr, DecidableEq

/-- A connection record as it appears in the Connections table or as a JS
object handed to / returned by the manager.  `createdAt` and `ttl` are
`Option` because a JS object may simply lack those fields (the value returned
by `registerConnection` has neither, while the `Item` it writes has
`createdAt` and, when TTL is enabled, `ttl`). -/
structure Connection where
  id : String
  data : ConnData
  createdAt : Option String
  ttl : Option Nat
deriving Repr, DecidableEq

/-- The Connections table: a map from id to record. -/
def Store := String → Option Connection

/-- DynamoDB `PutCommand`: unconditional upsert of the item keyed by its id. -/
def putItem (s : Store) (item : Connection) : Store :=
  fun k => if k = item.id then some item else s k

/-- DynamoDB `UpdateCommand` with `set #data = :data` on key `id`: replaces
only the `data` field of the item; if no item exists, creates one holding
just the key and the updated field. -/
def updateData (s : Store) (id : String) (newData : ConnData) : Store :=
  fun k =>
    if k = id then
      match s id with
      | some item => some { item with data := newData }
      | none => some ⟨id, newData, none, none⟩
    else s k

/-- DynamoDB `DeleteCommand` on key `id` (idempotent delete). -/
def deleteItem (s : Store) (id : String) : Store :=
  fun k => if k = id then none else s k

/-- A JS error value as inspected by `sendToConnection`'s catch block: a
possible `statusCode` field and a message.  A `ReferenceError` has no
`statusCode`. -/
structure JSError where
  statusCode : Option Nat
  message : String
deriving Repr, DecidableEq

/-- `ConnectionNotFoundError` thrown by `hydrateConnection`. -/
inductive ConnError where
  | connectionNotFound (msg : String)
deriving Repr, DecidableEq

/-- Modelled from the spec: `isTTLExpired` (src/packages/aws-lambda-graphql/
src/helpers/isTTLExpired.ts is not under src/).  Per the spec, `ttl` is an
absolute expiry instant and a record is expired exactly when its `ttl` is set
and strictly in the past; a record without `ttl` never expires. -/
def isTTLExpired (ttl : Option Nat) (now : Nat) : Bool :=
  match ttl with
  | none => false
  | some t => t < now

/-- Modelled from the spec: `computeTTL` (src/packages/aws-lambda-graphql/
src/helpers/computeTTL.ts is not under src/).  Per the spec, the stored `ttl`
is the absolute instant `now + seconds` for the configured TTL seconds. -/
def computeTTL (ttlSeconds : Nat) (now : Nat) : Nat :=
  now + ttlSeconds

/-- `HydrateConnectionOptions`: both fields optional, defaulted in
`hydrateConnection` by `const { retryCount = 0, timeout = 50 } = options || {}`. -/
structure HydrateConnectionOptions where
  retryCount : Option Nat := none
  timeout : Option Nat := none

/-- Outcome of one `hydrateConnection` call: how many `GetCommand` sends were
performed, the list of delays awaited (each entry one `setTimeout` wait, in
ms), and the result. -/
structure HydrateResult where
  attempts : Nat
  waits : List Nat
  result : Except ConnError Connection
deriving Repr

/-- The body of `hydrateConnection`'s `for (let i = 0; i <= retryCount; i++)`
loop, with `fuel` the number of iterations still to run (initially
`retryCount + 1`).  Each iteration sends a `GetCommand` (the result of the
`i`-th send is `reads i`); on an item it breaks out of the loop, otherwise it
awaits `setTimeout(timeout)` and continues. -/
def hydrateLoop (reads : Nat → Option Connection) (timeout : Nat) :
    Nat → Nat → Option Connection × Nat × List Nat
  | _, 0 => (none, 0, [])
  | i, fuel + 1 =>
    match reads i with
    | some item => (some item, 1, [])
    | none =>
      let rest := hydrateLoop reads timeout (i + 1) fuel
      (rest.1, rest.2.1 + 1, timeout :: rest.2.2)

/-- `hydrateConnection(connectionId, options)`: runs the bounded retry loop,
then throws `ConnectionNotFoundError` if no record was found or the found
record's `ttl` is expired, else returns the record. -/
def hydrateConnection (reads : Nat → Option Connection) (now : Nat)
    (connectionId : String) (options : Option HydrateConnectionOptions) :
    HydrateResult :=
  let retryCount := ((options.getD {}).retryCount).getD 0
  let timeout := ((options.getD {}).timeout).getD 50
  let run := hydrateLoop reads timeout 0 (retryCount + 1)
  match run.1 with
  | none =>
    ⟨run.2.1, run.2.2,
      .error (.connectionNotFound ("Connection " ++ connectionId ++ " not found"))⟩
  | some connection =>
    if isTTLExpired connection.ttl now then
      ⟨run.2.1, run.2.2,
        .error (.connectionNotFound ("Connection " ++ connectionId ++ " not found"))⟩
    else
      ⟨run.2.1, run.2.2, .ok connection⟩

/-- `IConnectEvent` as consumed by `registerConnection`: it destructures only
`connectionId` and `endpoint`; `extra` stands for any other fields the event
may carry (which the destructuring ignores). -/
structure ConnectEvent where
  connectionId : String
  endpoint : String
  extra : List (String × String) := []

/-- Outcome of `registerConnection`: the store after the `PutCommand`, the
`Item` that was written, and the JS value returned to the caller. -/
structure RegisterResult where
  store : Store
  written : Connection
  returned : Connection

/-- `registerConnection(connectEvent)`: builds
`connection = { id, data: { endpoint, context: {}, isInitialized: false } }`,
writes `Item = { createdAt: new Date().toString(), id, data, ...(ttl off ? {} :
{ ttl: computeTTL(ttl) }) }` via an unconditional `PutCommand`, and returns
`connection`.  `ttlConfig = none` models `this.ttl === false` (TTL disabled);
`now` is the current instant in seconds and `toString now` stands for
`new Date().toString()`. -/
def registerConnection (ttlConfig : Option Nat) (now : Nat) (store : Store)
    (event : ConnectEvent) : RegisterResult :=
  let connection : Connection := ⟨event.connectionId, ⟨event.endpoint, [], false⟩, none, none⟩
  let item : Connection :=
    { id := connection.id
      data := connection.data
      createdAt := some (toString now)
      ttl := ttlConfig.map (fun s => computeTTL s now) }
  ⟨putItem store item, item, connection⟩

/-- `setConnectionData(data, { id })`: sends the `UpdateCommand` replacing the
`data` field of the record keyed by `id`. -/
def setConnectionData (store : Store) (newData : ConnData) (id : String) : Store :=
  updateData store id newData

/-- The side effects an operation issues against the collaborators. -/
inductive Effect where
  | storageDelete (id : String)
  | unsubscribeAll (id : String)
  | transportPost (id : String) (payload : String)
  | transportTerminate (id : String)
deriving Repr, DecidableEq

/-- A transport client; we represent it by the endpoint it was constructed
for (or an opaque tag for a caller-supplied override). -/
def Client := String
deriving instance Repr, DecidableEq for Client

/-- Steps taken inside `createApiGatewayManager` on the lazy-construction
path. -/
inductive GwStep where
  | logEndpoint (e : String)
  | normalize (e : String)
  | refEndpoint1
  | construct (e : String)
deriving Repr, DecidableEq

/-- Outcome of `createApiGatewayManager`: the steps performed, the client (or
the error aborting the call), and the cached client afterwards. -/
structure GwResult where
  steps : List GwStep
  result : Except JSError Client
  cached : Option Client

/-- The endpoint normalization: prefix `wss://` unless the endpoint already
matches `/^wss?:\x2f\x2f/i`. -/
def normalizeEndpoint (endpoint : String) : String :=
  if (endpoint.toLower.startsWith "ws://" || endpoint.toLower.startsWith "wss://") then
    endpoint
  else
    "wss://" ++ endpoint

/-- The `ReferenceError` raised by evaluating the undeclared identifier
`endpoint1` at `console.info("endpoint1", endpoint1)`.  A `ReferenceError`
carries no `statusCode`. -/
def referenceErrorEndpoint1 : JSError :=
  ⟨none, "endpoint1 is not defined"⟩

/-- `createApiGatewayManager(endpoint)`: returns the cached/override client if
present.  Otherwise it logs the endpoint, normalizes it, and then evaluates
`endpoint1` — an undeclared identifier — so the call aborts with a
`ReferenceError` before any client is constructed or cached. -/
def createApiGatewayManager (cached : Option Client) (endpoint : String) : GwResult :=
  match cached with
  | some m => ⟨[], .ok m, some m⟩
  | none =>
    ⟨[.logEndpoint endpoint, .normalize (normalizeEndpoint endpoint), .refEndpoint1],
      .error referenceErrorEndpoint1, none⟩

/-- `unregisterConnection({ id })`: `Promise.all` of the storage
`DeleteCommand` for `id` and `subscriptions.unsubscribeAllByConnectionId(id)`.
Both effects are issued (fan-out); the join resolves only if both resolve and
rejects with the first rejection otherwise.  `deleteRes` and `unsubRes` are
the collaborators' outcomes. -/
def unregisterConnection (deleteRes unsubRes : Except JSError Unit) (id : String) :
    List Effect × Except JSError Unit :=
  ([.storageDelete id, .unsubscribeAll id],
    match deleteRes, unsubRes with
    | .ok _, .ok _ => .ok ()
    | .error e, _ => .error e
    | .ok _, .error e => .error e)

/-- `sendToConnection(connection, payload)`: obtains the transport client for
`connection.data.endpoint` and posts `payload` to `connection.id`; in the
catch block, an error with `statusCode === 410` triggers
`unregisterConnection(connection)` (swallowing the error), any other error is
rethrown.  `sendRes` is the transport's outcome for the post. -/
def sendToConnection (cached : Option Client) (sendRes : Except JSError Unit)
    (deleteRes unsubRes : Except JSError Unit) (connection : Connection)
    (payload : String) : List Effect × Except JSError Unit :=
  let tryBlock : List Effect × Except JSError Unit :=
    match (createApiGatewayManager cached connection.data.endpoint).result with
    | .error e => ([], .error e)
    | .ok _ =>
      match sendRes with
      | .ok _ => ([.transportPost connection.id payload], .ok ())
      | .error e => ([.transportPost connection.id payload], .error e)
  match tryBlock with
  | (tr, .ok _) => (tr, .ok ())
  | (tr, .error e) =>
    if e.statusCode = some 410 then
      let cleanup := unregisterConnection deleteRes unsubRes connection.id
      (tr ++ cleanup.1, cleanup.2)
    else
      (tr, .error e)

/-- `closeConnection({ id, data })`: obtains the transport client for
`data.endpoint` and sends `DeleteConnectionCommand` for `id`.  `termRes` is
the transport's outcome for the terminate. -/
def closeConnection (cached : Option Client) (termRes : Except JSError Unit)
    (connection : Connection) : List Effect × Except JSError Unit :=
  match (createApiGatewayManager cached connection.data.endpoint).result with
  | .error e => ([], .error e)
  | .ok _ =>
    match termRes with
    | .ok _ => ([.transportTerminate connection.id], .ok ())
    | .error e => ([.transportTerminate connection.id], .error e)

/-! ## Lemmas about the hydrate loop -/

/-- When every read comes back absent, the loop runs all its iterations, each
performing one read followed by one wait. -/
lemma hydrateLoop_all_none (reads : Nat → Option Connection) (timeout : Nat)
    (h : ∀ i, reads i = none) :
    ∀ fuel i, hydrateLoop reads timeout i fuel = (none, fuel, List.replicate fuel timeout) := by
  intro fuel
  induction fuel with
  | zero => intro i; rfl
  | succ n ih =>
    intro i
    simp only [hydrateLoop, h i, ih (i + 1), List.replicate]

/-- When the first `k` reads (from start index `i`) come back absent and the
`k`-th read yields `item`, the loop stops there: `k + 1` reads were sent and
`k` waits performed. -/
lemma hydrateLoop_found (reads : Nat → Option Connection) (timeout : Nat)
    (item : Connection) :
    ∀ k i fuel, (∀ j, j < k → reads (i + j) = none) → reads (i + k) = some item →
      k < fuel →
      hydrateLoop reads timeout i fuel = (some item, k + 1, List.replicate k timeout) := by
  intro k
  induction k with
  | zero =>
    intro i fuel _habs hfound hlt
    match fuel, hlt with
    | n + 1, _ =>
      simp only [Nat.add_zero] at hfound
      simp only [hydrateLoop, hfound, List.replicate]
  | succ m ih =>
    intro i fuel habs hfound hlt
    match fuel, hlt with
    | n + 1, hlt =>
      have h0 : reads i = none := by
        have := habs 0 (Nat.succ_pos m)
        simpa using this
      have habs' : ∀ j, j < m → reads (i + 1 + j) = none := by
        intro j hj
        have := habs (j + 1) (Nat.succ_lt_succ hj)
        simpa [Nat.add_comm, Nat.add_assoc, Nat.add_left_comm] using this
      have hfound' : reads (i + 1 + m) = some item := by
        have : i + 1 + m = i + (m + 1) := by omega
        rw [this]; exact hfound
      have hm : m < n := Nat.lt_of_succ_lt_succ hlt
      simp only [hydrateLoop, h0, ih (i + 1) n habs' hfound' hm, List.replicate]

/-! ## Claim theorems -/

/-- C1: for every `retryCount = R`, if every storage read for the given id
returns absent, `hydrateConnection` performs exactly `R + 1` read attempts
(`GetCommand` sends) and then fails with `ConnectionNotFoundError`. -/
theorem hydrate_all_absent_attempts (reads : Nat → Option Connection)
    (h : ∀ i, reads i = none) (now R t : Nat) (id : String) :
    (hydrateConnection reads now id (some ⟨some R, some t⟩)).attempts = R + 1 ∧
    (hydrateConnection reads now id (some ⟨some R, some t⟩)).result =
      .error (.connectionNotFound ("Connection " ++ id ++ " not found")) := by
  simp only [hydrateConnection, Option.getD_some, hydrateLoop_all_none reads t h (R + 1) 0]
  exact ⟨trivial, trivial⟩

/-- C1 witness: with reads always absent and `retryCount = 2`, there are
exactly 3 attempts and the call fails with `ConnectionNotFoundError`. -/
theorem hydrate_all_absent_attempts_witness :
    (hydrateConnection (fun _ => none) 0 "c1" (some ⟨some 2, some 50⟩)).attempts = 2 + 1 ∧
    (hydrateConnection (fun _ => none) 0 "c1" (some ⟨some 2, some 50⟩)).result =
      .error (.connectionNotFound ("Connection " ++ "c1" ++ " not found")) :=
  hydrate_all_absent_attempts (fun _ => none) (fun _ => rfl) 0 2 50 "c1"

/-- C2 counterexample: with `retryCount = 1` and reads always absent, the call
performs 2 delay waits, not `retryCount = 1`: the loop body also waits after
the last failed attempt, before the error is thrown. -/
theorem hydrate_waits_not_retryCount :
    ¬ ((hydrateConnection (fun _ => none) 0 "c1"
        (some ⟨some 1, some 50⟩)).waits.length = 1) := by
  have h : (hydrateConnection (fun _ => none) 0 "c1"
      (some ⟨some 1, some 50⟩)).waits = [50, 50] := by
    simp only [hydrateConnection, Option.getD_some,
      hydrateLoop_all_none (fun _ => none) 50 (fun _ => rfl) (1 + 1) 0]
    rfl
  rw [h]
  decide

/-- C2 amended: when all read attempts find no record, `hydrateConnection`
performs exactly `retryCount + 1` delay waits of length `timeout` — one after
every failed attempt, including the last — so it suspends the calling flow
for `(retryCount + 1) × timeout` before failing. -/
theorem hydrate_all_absent_waits (reads : Nat → Option Connection)
    (h : ∀ i, reads i = none) (now R t : Nat) (id : String) :
    (hydrateConnection reads now id (some ⟨some R, some t⟩)).waits =
      List.replicate (R + 1) t ∧
    ((hydrateConnection reads now id (some ⟨some R, some t⟩)).waits).sum =
      (R + 1) * t := by
  simp only [hydrateConnection, Option.getD_some, hydrateLoop_all_none reads t h (R + 1) 0]
  exact ⟨trivial, by simp [List.sum_replicate, smul_eq_mul]⟩

/-- C2 amended witness: with `retryCount = 1` and `timeout = 50`, there are 2
waits of 50 each, 100 in total. -/
theorem hydrate_all_absent_waits_witness :
    (hydrateConnection (fun _ => none) 0 "c1" (some ⟨some 1, some 50⟩)).waits =
      List.replicate (1 + 1) 50 ∧
    ((hydrateConnection (fun _ => none) 0 "c1" (some ⟨some 1, some 50⟩)).waits).sum =
      (1 + 1) * 50 :=
  hydrate_all_absent_waits (fun _ => none) (fun _ => rfl) 0 1 50 "c1"

/-- C3: if the first attempt that yields a record yields one whose `ttl` is
set and strictly in the past, `hydrateConnection` fails with
`ConnectionNotFoundError` right there: `k + 1` attempts and `k` waits when the
record shows up on attempt `k` (zero-based), with no further retries. -/
theorem hydrate_expired_record (reads : Nat → Option Connection)
    (now R t k tval : Nat) (id : String) (item : Connection)
    (hk : k ≤ R) (habs : ∀ j, j < k → reads j = none) (hfound : reads k = some item)
    (httl : item.ttl = some tval) (hexp : tval < now) :
    (hydrateConnection reads now id (some ⟨some R, some t⟩)).result =
      .error (.connectionNotFound ("Connection " ++ id ++ " not found")) ∧
    (hydrateConnection reads now id (some ⟨some R, some t⟩)).attempts = k + 1 ∧
    (hydrateConnection reads now id (some ⟨some R, some t⟩)).waits =
      List.replicate k t := by
  have habs' : ∀ j, j < k → reads (0 + j) = none := by
    intro j hj; simpa using habs j hj
  have hfound' : reads (0 + k) = some item := by simpa using hfound
  have hrun := hydrateLoop_found reads t item k 0 (R + 1) habs' hfound'
    (Nat.lt_succ_of_le hk)
  have hexpired : isTTLExpired item.ttl now = true := by
    simp [isTTLExpired, httl, hexp]
  simp only [hydrateConnection, Option.getD_some, hrun]
  simp [hexpired]

/-- C3 witness: a record with `ttl = 10` read successfully on the very first
attempt at `now = 100` fails immediately with one attempt and no waits. -/
theorem hydrate_expired_record_witness :
    (hydrateConnection
        (fun i => if i = 0 then some ⟨"c1", ⟨"host", [], false⟩, none, some 10⟩ else none)
        100 "c1" (some ⟨some 2, some 50⟩)).result =
      .error (.connectionNotFound ("Connection " ++ "c1" ++ " not found")) ∧
    (hydrateConnection
        (fun i => if i = 0 then some ⟨"c1", ⟨"host", [], false⟩, none, some 10⟩ else none)
        100 "c1" (some ⟨some 2, some 50⟩)).attempts = 0 + 1 ∧
    (hydrateConnection
        (fun i => if i = 0 then some ⟨"c1", ⟨"host", [], false⟩, none, some 10⟩ else none)
        100 "c1" (some ⟨some 2, some 50⟩)).waits = List.replicate 0 50 :=
  hydrate_expired_record
    (fun i => if i = 0 then some ⟨"c1", ⟨"host", [], false⟩, none, some 10⟩ else none)
    100 2 50 0 10 "c1" ⟨"c1", ⟨"host", [], false⟩, none, some 10⟩
    (by decide) (by intro j hj; omega) (by decide) rfl (by decide)

/-- C4: `registerConnection` writes a record with
`data = {endpoint, context: {}, isInitialized: false}` regardless of other
event fields, with `ttl = now + seconds` exactly when TTL is configured and no
`ttl` field when disabled, as an unconditional upsert with no existence
check. -/
theorem register_writes_record (ttlConfig : Option Nat) (now : Nat) (store : Store)
    (event : ConnectEvent) :
    (registerConnection ttlConfig now store event).written.id = event.connectionId ∧
    (registerConnection ttlConfig now store event).written.data =
      ⟨event.endpoint, [], false⟩ ∧
    (registerConnection ttlConfig now store event).written.createdAt =
      some (toString now) ∧
    (registerConnection ttlConfig now store event).written.ttl =
      ttlConfig.map (fun s => computeTTL s now) ∧
    (∀ extra, registerConnection ttlConfig now store
      ⟨event.connectionId, event.endpoint, extra⟩ =
      registerConnection ttlConfig now store event) ∧
    (∀ k, (registerConnection ttlConfig now store event).store k =
      if k = event.connectionId
      then some (registerConnection ttlConfig now store event).written
      else store k) :=
  ⟨rfl, rfl, rfl, rfl, fun _ => rfl, fun _ => rfl⟩

/-- C5 counterexample: at time 1000 with TTL 7200, the value returned by
`registerConnection` is the JS object `{id, data}`: it is not the written
record, and it carries neither the persisted `createdAt` nor the persisted
`ttl = 8200`. -/
theorem register_return_differs_from_written :
    (registerConnection (some 7200) 1000 (fun _ => none)
        ⟨"c1", "host/path", []⟩).returned ≠
      (registerConnection (some 7200) 1000 (fun _ => none)
        ⟨"c1", "host/path", []⟩).written ∧
    (registerConnection (some 7200) 1000 (fun _ => none)
        ⟨"c1", "host/path", []⟩).written.ttl = some 8200 ∧
    (registerConnection (some 7200) 1000 (fun _ => none)
        ⟨"c1", "host/path", []⟩).returned.ttl = none ∧
    (registerConnection (some 7200) 1000 (fun _ => none)
        ⟨"c1", "host/path", []⟩).returned.createdAt = none := by
  refine ⟨?_, rfl, rfl, rfl⟩
  intro h
  have := congrArg Connection.ttl h
  simp [registerConnection, computeTTL] at this

/-- C5 amended: the value returned by `registerConnection` agrees with the
written record on `id` and `data`, but contains no `createdAt` and no `ttl`
field, even when TTL is configured and both were persisted. -/
theorem register_return_id_data (ttlConfig : Option Nat) (now : Nat) (store : Store)
    (event : ConnectEvent) :
    (registerConnection ttlConfig now store event).returned.id =
      (registerConnection ttlConfig now store event).written.id ∧
    (registerConnection ttlConfig now store event).returned.data =
      (registerConnection ttlConfig now store event).written.data ∧
    (registerConnection ttlConfig now store event).returned.createdAt = none ∧
    (registerConnection ttlConfig now store event).returned.ttl = none :=
  ⟨rfl, rfl, rfl, rfl⟩

/-- C6: `setConnectionData` replaces only the `data` field of the record at
the connection's id — `createdAt` and `ttl` are unchanged — and no other
record is touched. -/
theorem setConnectionData_frame (store : Store) (newData : ConnData) (id : String)
    (item : Connection) (h : store id = some item) :
    (setConnectionData store newData id) id =
      some ⟨item.id, newData, item.createdAt, item.ttl⟩ ∧
    (∀ k, k ≠ id → (setConnectionData store newData id) k = store k) := by
  constructor
  · simp [setConnectionData, updateData, h]
  · intro k hk
    simp [setConnectionData, updateData, hk]

/-- C6 witness: updating the data of a concrete stored record keeps its
`createdAt` and `ttl` and leaves a different key untouched. -/
theorem setConnectionData_frame_witness :
    (setConnectionData
        (fun k => if k = "c1" then some ⟨"c1", ⟨"host", [], false⟩, some "1000", some 8200⟩
          else if k = "c2" then some ⟨"c2", ⟨"h2", [], true⟩, none, none⟩ else none)
        ⟨"host", [("k", "v")], true⟩ "c1") "c1" =
      some ⟨"c1", ⟨"host", [("k", "v")], true⟩, some "1000", some 8200⟩ ∧
    (∀ k, k ≠ "c1" →
      (setConnectionData
        (fun k => if k = "c1" then some ⟨"c1", ⟨"host", [], false⟩, some "1000", some 8200⟩
          else if k = "c2" then some ⟨"c2", ⟨"h2", [], true⟩, none, none⟩ else none)
        ⟨"host", [("k", "v")], true⟩ "c1") k =
      (fun k => if k = "c1" then some ⟨"c1", ⟨"host", [], false⟩, some "1000", some 8200⟩
          else if k = "c2" then some ⟨"c2", ⟨"h2", [], true⟩, none, none⟩ else none) k) :=
  setConnectionData_frame
    (fun k => if k = "c1" then some ⟨"c1", ⟨"host", [], false⟩, some "1000", some 8200⟩
      else if k = "c2" then some ⟨"c2", ⟨"h2", [], true⟩, none, none⟩ else none)
    ⟨"host", [("k", "v")], true⟩ "c1"
    ⟨"c1", ⟨"host", [], false⟩, some "1000", some 8200⟩ (by rfl)

/-- C7: when the transport post fails with the "gone" signal (statusCode 410),
`sendToConnection` performs the full unregister cascade — one storage delete
and exactly one `unsubscribeAllByConnectionId` — and the caller sees the
unregister outcome (`ok` when the collaborators succeed), not the gone error;
any other transport error propagates unchanged with no cleanup. -/
theorem sendToConnection_gone_vs_other (m : Client) (gmsg : String) (e : JSError)
    (dRes uRes dRes' uRes' : Except JSError Unit) (conn : Connection) (p : String)
    (hne : e.statusCode ≠ some 410) :
    sendToConnection (some m) (.error ⟨some 410, gmsg⟩) dRes uRes conn p =
      ([.transportPost conn.id p, .storageDelete conn.id, .unsubscribeAll conn.id],
        (unregisterConnection dRes uRes conn.id).2) ∧
    sendToConnection (some m) (.error ⟨some 410, gmsg⟩) (.ok ()) (.ok ()) conn p =
      ([.transportPost conn.id p, .storageDelete conn.id, .unsubscribeAll conn.id],
        .ok ()) ∧
    sendToConnection (some m) (.error e) dRes' uRes' conn p =
      ([.transportPost conn.id p], .error e) := by
  refine ⟨?_, ?_, ?_⟩
  · simp [sendToConnection, createApiGatewayManager, unregisterConnection]
  · simp [sendToConnection, createApiGatewayManager, unregisterConnection]
  · simp [sendToConnection, createApiGatewayManager, hne]

/-- C7 witness: a gone error (status 410) with succeeding collaborators is
swallowed after the cleanup, and a status-500 error propagates unchanged. -/
theorem sendToConnection_gone_vs_other_witness :
    sendToConnection (some "mgr") (.error ⟨some 410, "Gone"⟩) (.ok ()) (.ok ())
        ⟨"c1", ⟨"host", [], false⟩, none, none⟩ "hi" =
      ([.transportPost "c1" "hi", .storageDelete "c1", .unsubscribeAll "c1"],
        (unregisterConnection (.ok ()) (.ok ()) "c1").2) ∧
    sendToConnection (some "mgr") (.error ⟨some 410, "Gone"⟩) (.ok ()) (.ok ())
        ⟨"c1", ⟨"host", [], false⟩, none, none⟩ "hi" =
      ([.transportPost "c1" "hi", .storageDelete "c1", .unsubscribeAll "c1"],
        .ok ()) ∧
    sendToConnection (some "mgr") (.error ⟨some 500, "boom"⟩) (.ok ()) (.ok ())
        ⟨"c1", ⟨"host", [], false⟩, none, none⟩ "hi" =
      ([.transportPost "c1" "hi"], .error ⟨some 500, "boom"⟩) :=
  sendToConnection_gone_vs_other "mgr" "Gone" ⟨some 500, "boom"⟩
    (.ok ()) (.ok ()) (.ok ()) (.ok ())
    ⟨"c1", ⟨"host", [], false⟩, none, none⟩ "hi" (by decide)

/-- C8: `closeConnection` is strictly a transport-level action: its effect
trace is either empty (client construction failed) or exactly one transport
terminate for the connection's id; no StorageBackend or SubscriptionRegistry
effect ever appears, and with a client available it performs exactly the
terminate and returns the transport's outcome. -/
theorem closeConnection_transport_only (termRes : Except JSError Unit)
    (conn : Connection) :
    closeConnection none termRes conn = ([], .error referenceErrorEndpoint1) ∧
    (∀ m, closeConnection (some m) termRes conn =
      ([.transportTerminate conn.id], termRes)) ∧
    (∀ cached, (closeConnection cached termRes conn).1 = [] ∨
      (closeConnection cached termRes conn).1 = [.transportTerminate conn.id]) := by
  refine ⟨?_, ?_, ?_⟩
  · cases termRes <;> rfl
  · intro m; cases termRes <;> rfl
  · intro cached
    cases cached <;> cases termRes <;> simp [closeConnection, createApiGatewayManager]

/-- C9: `unregisterConnection` issues both the storage delete and the
`unsubscribeAllByConnectionId` request (each exactly once, regardless of
outcomes — no compensation), and succeeds exactly when both sub-operations
succeed. -/
theorem unregisterConnection_join (dRes uRes : Except JSError Unit) (id : String) :
    (unregisterConnection dRes uRes id).1 = [.storageDelete id, .unsubscribeAll id] ∧
    ((unregisterConnection dRes uRes id).2 = .ok () ↔
      dRes = .ok () ∧ uRes = .ok ()) := by
  refine ⟨rfl, ?_⟩
  cases dRes with
  | ok u =>
    cases u
    cases uRes with
    | ok v => cases v; simp [unregisterConnection]
    | error e => simp [unregisterConnection]
  | error e =>
    cases uRes <;> simp [unregisterConnection]

/-- C10: when no override client is configured, the lazy-construction path of
`createApiGatewayManager` evaluates the undeclared identifier `endpoint1`
after normalizing the endpoint and aborts with a `ReferenceError` — no client
is constructed or cached — so `sendToConnection` and `closeConnection` fail in
that configuration; a configured override client is always returned and never
replaced. -/
theorem createApiGatewayManager_endpoint1_defect (endpoint : String) (m : Client)
    (sendRes dRes uRes termRes : Except JSError Unit) (conn : Connection)
    (p : String) :
    createApiGatewayManager none endpoint =
      ⟨[.logEndpoint endpoint, .normalize (normalizeEndpoint endpoint), .refEndpoint1],
        .error referenceErrorEndpoint1, none⟩ ∧
    createApiGatewayManager (some m) endpoint = ⟨[], .ok m, some m⟩ ∧
    (∀ e, GwStep.construct e ∉ (createApiGatewayManager none endpoint).steps) ∧
    sendToConnection none sendRes dRes uRes conn p =
      ([], .error referenceErrorEndpoint1) ∧
    closeConnection none termRes conn = ([], .error referenceErrorEndpoint1) := by
  refine ⟨rfl, rfl, ?_, ?_, ?_⟩
  · intro e
    simp [createApiGatewayManager]
  · cases sendRes <;> simp [sendToConnection, createApiGatewayManager,
      referenceErrorEndpoint1]
  · cases termRes <;> rfl

end DynamoDBCM
